import Mathlib

set_option maxRecDepth 2048

/-!
Shallow embedding of `src/scripts/consultar_cnpjs_colab.py`: the identifier
normalizer (`to_str` / `apenas_digitos` / `normaliza_cnpj`), the checksum
validator (`cnpj_valido`), the registry client (`consulta_brasilapi`) over an
explicit network oracle, and the enrichment pipeline (dedup, lookup loop,
tallies, left merge).  Strings are Lean `String`s; a decimal digit means an
ASCII digit; absent spreadsheet cells reach the normalizer as `""`.
-/

namespace Cnpj

/-- Constant `MAX_RETRIES = 3` from the script configuration. -/
def MAX_RETRIES : Nat := 3

/-- Constant `BACKOFF_BASE = 0.8` seconds, modelled by the exact rational 4/5. -/
def BACKOFF_BASE : ℚ := 4 / 5

/-- Constant `SLEEP_ENTRE_CHAMADAS = 0.15` seconds, modelled by the exact rational 3/20. -/
def SLEEP_ENTRE_CHAMADAS : ℚ := 3 / 20

/-- Python `str.strip()`: drop whitespace at both ends. -/
def stripWs (s : String) : String :=
  ⟨((s.data.dropWhile Char.isWhitespace).reverse.dropWhile Char.isWhitespace).reverse⟩

/-- Tail of the scientific-notation pattern after the mantissa: `[eE]\+\d+`,
    consuming the whole remainder (the regex is a fullmatch). -/
def parseExp (a b : List Char) : List Char → Option (List Char × List Char × List Char)
  | e :: '+' :: r =>
      if (e = 'e' ∨ e = 'E') ∧ r ≠ [] ∧ r.all Char.isDigit then some (a, b, r) else none
  | _ => none

/-- Matcher for `re.fullmatch(r"\d+(?:\.\d+)?[eE]\+\d+", s)`: on a match, the integer
    digits, the fraction digits (possibly `[]`) and the exponent digits. -/
def parseSci (l : List Char) : Option (List Char × List Char × List Char) :=
  let a := l.takeWhile Char.isDigit
  let r := l.dropWhile Char.isDigit
  if a = [] then none
  else
    match r with
    | '.' :: r2 =>
        let b := r2.takeWhile Char.isDigit
        let r3 := r2.dropWhile Char.isDigit
        if b = [] then none else parseExp a b r3
    | _ => parseExp a [] r

/-- Numeric value of a decimal digit character (`int(c)` in Python). -/
def digitVal (c : Char) : Nat := c.toNat - 48

/-- Value of a big-endian list of decimal digit characters. -/
def digitsToNat (l : List Char) : Nat := l.foldl (fun n c => 10 * n + digitVal c) 0

/-- Value of `str(int(float(s)))` on a matched scientific-notation literal, modelled by
    its exact decimal value `⌊a.b * 10^e⌋` (the binary rounding of the Python
    double and float overflow are not modelled). -/
def sciToIntStr (a b e : List Char) : String :=
  toString ((digitsToNat a * 10 ^ b.length + digitsToNat b) * 10 ^ digitsToNat e / 10 ^ b.length)

/-- Function `to_str` from the script, on string cells (`None`/`NaN` reach it as `""`). -/
def to_str (x : String) : String :=
  let s := stripWs x
  match parseSci s.data with
  | some (a, b, e) => sciToIntStr a b e
  | none => s

/-- Function `apenas_digitos`, that is `re.sub(r"\D", "", s)`: keep only decimal digits. -/
def apenas_digitos (s : String) : String := ⟨s.data.filter Char.isDigit⟩

/-- Python `str.zfill(w)` on a digits-only string: left-pad with zeros. -/
def zfill (s : String) (w : Nat) : String :=
  ⟨List.replicate (w - s.length) '0' ++ s.data⟩

/-- Function `normaliza_cnpj`: digits of the cleaned cell text, zero-padded to 14. -/
def normaliza_cnpj (s : String) : String := zfill (apenas_digitos (to_str s)) 14

/-- The inner `dv` of `cnpj_valido`: weighted digit sum mod 11, rendered as the
    check-digit character (`"0"` when the remainder is below 2). -/
def dv (nums : List Char) (pesos : List Nat) : Char :=
  let soma := ((nums.zip pesos).map (fun np => digitVal np.1 * np.2)).sum
  let r := soma % 11
  if r < 2 then '0' else Nat.digitChar (11 - r)

/-- The first weight list `p1 = [5,4,3,2,9,8,7,6,5,4,3,2]`; `p2 = 6 :: p1`. -/
def pesos1 : List Nat := [5, 4, 3, 2, 9, 8, 7, 6, 5, 4, 3, 2]

/-- Function `cnpj_valido` from the script: strip non-digits, reject wrong length and
    repunits, then compare the last two characters with the two check digits. -/
def cnpj_valido (cnpj : String) : Bool :=
  match (apenas_digitos cnpj).data with
  | [] => false
  | h :: t =>
    let c := h :: t
    if c.length ≠ 14 then false
    else if c = List.replicate 14 h then false
    else
      let d1 := dv (c.take 12) pesos1
      let d2 := dv (c.take 12 ++ [d1]) (6 :: pesos1)
      c.drop 12 == [d1, d2]

/-- The check digit exactly as the spec words it, over digit values: weighted
    sum, remainder modulo 11, `0` if the remainder is below 2, else `11 -`
    the remainder. -/
def digitoSpec (ds : List Nat) (pesos : List Nat) : Nat :=
  let r := ((ds.zip pesos).map (fun dp => dp.1 * dp.2)).sum % 11
  if r < 2 then 0 else 11 - r

/-- The result record of `consulta_brasilapi`; the field names transliterate the
    dict keys of the script (`"Razão Social"` is `razaoSocial`, and so on). -/
structure LookupResult where
  cnpj : String
  razaoSocial : String
  nomeFantasia : String
  cnaePrincipal : String
  descricaoCnae : String
  cnaeSec1 : String
  cnaeSec1Desc : String
  porte : String
  capitalSocial : String
  situacaoCadastral : String
  dataSituacaoCadastral : String
  logradouro : String
  numero : String
  complemento : String
  bairro : String
  municipio : String
  uf : String
  cep : String
  enderecoFormatado : String
  email : String
  telefone1 : String
  telefone2 : String
  deriving DecidableEq, Repr

/-- The error dicts of the script: every field empty except the key `CNPJ` and
    the status string carried in `Razão Social`. -/
def resultadoErro (cnpj nome : String) : LookupResult :=
  ⟨cnpj, nome, "", "", "", "", "", "", "", "", "", "", "", "", "", "", "", "", "", "", "", ""⟩

/-- The JSON body fields the script reads; `none` models a missing or null key.
    A secondary-CNAE entry is its `codigo` and `descricao` values. -/
structure ApiData where
  message : Option String
  razao_social : Option String
  nome_fantasia : Option String
  cnae_fiscal : Option String
  cnae_fiscal_descricao : Option String
  cnaes_secundarios : Option (List (Option String × Option String))
  porte : Option String
  capital_social : Option String
  descricao_situacao_cadastral : Option String
  situacao_cadastral : Option String
  data_situacao_cadastral : Option String
  logradouro : Option String
  numero : Option String
  complemento : Option String
  bairro : Option String
  municipio : Option String
  uf : Option String
  cep : Option String
  email : Option String
  ddd_telefone_1 : Option String
  ddd_telefone_2 : Option String
  deriving DecidableEq, Repr

/-- A body whose every key is absent (the `{}` a null JSON body turns into). -/
def dadosVazios : ApiData :=
  ⟨none, none, none, none, none, none, none, none, none, none, none,
   none, none, none, none, none, none, none, none, none, none⟩

/-- Function `_endereco_formatado`: join the nonempty address parts with `", "`, with
    `"city - state"` and `"CEP <code>"` composites. -/
def endFormatado (d : ApiData) : String :=
  let log := d.logradouro.getD ""
  let num := d.numero.getD ""
  let comp := d.complemento.getD ""
  let bai := d.bairro.getD ""
  let mun := d.municipio.getD ""
  let uf := d.uf.getD ""
  let cep := d.cep.getD ""
  let partes :=
    (if log ≠ "" then [log] else []) ++ (if num ≠ "" then [num] else []) ++
    (if comp ≠ "" then [comp] else []) ++ (if bai ≠ "" then [bai] else [])
  let cidadeUf := String.intercalate " - " ([mun, uf].filter (fun p => p != ""))
  let partes := partes ++ (if cidadeUf ≠ "" then [cidadeUf] else [])
  let partes := partes ++ (if cep ≠ "" then ["CEP " ++ cep] else [])
  String.intercalate ", " (partes.filter (fun p => p != ""))

/-- The HTTP 200 branch of `consulta_brasilapi`: the fields of interest, the
    first secondary CNAE if any, the registration-status fallback chain, and
    the formatted address. -/
def monta200 (cnpj : String) (d : ApiData) : LookupResult :=
  let secs := d.cnaes_secundarios.getD []
  let cnaeSec1 := match secs with
    | (cod, _) :: _ => cod.getD ""
    | [] => ""
  let cnaeSec1Desc := match secs with
    | (_, desc) :: _ => desc.getD ""
    | [] => ""
  let situacao :=
    let s1 := d.descricao_situacao_cadastral.getD ""
    if s1 ≠ "" then s1 else d.situacao_cadastral.getD ""
  ⟨cnpj, d.razao_social.getD "", d.nome_fantasia.getD "", d.cnae_fiscal.getD "",
   d.cnae_fiscal_descricao.getD "", cnaeSec1, cnaeSec1Desc, d.porte.getD "",
   d.capital_social.getD "", situacao, d.data_situacao_cadastral.getD "",
   d.logradouro.getD "", d.numero.getD "", d.complemento.getD "", d.bairro.getD "",
   d.municipio.getD "", d.uf.getD "", d.cep.getD "", endFormatado d,
   d.email.getD "", d.ddd_telefone_1.getD "", d.ddd_telefone_2.getD ""⟩

/-- One HTTP response: a status and a body; a `none` body is one that is not
    parseable as JSON (where `r.json()` raises). -/
structure Resp where
  status : Nat
  body : Option ApiData
  deriving DecidableEq, Repr

/-- Outcome of one `requests.get`: a response, or a transport failure
    (`requests.RequestException`) carrying its description. -/
inductive Attempt where
  | falha (desc : String)
  | resp (r : Resp)
  deriving DecidableEq, Repr

/-- Extraction `r.json().get("message", dflt)` under `try/except` with the same default in
    both the missing-key and the unparseable-body cases (the 404 branch). -/
def msgOuD (b : Option ApiData) (dflt : String) : String :=
  match b with
  | none => dflt
  | some d => d.message.getD dflt

/-- Message extraction in the error branches: `""` when the body parses without
    a `message` key, `"HTTP <status>"` when the body does not parse. -/
def msgErro (st : Nat) (b : Option ApiData) : String :=
  match b with
  | none => "HTTP " ++ toString st
  | some d => d.message.getD ""

/-- The retryable statuses `(429, 500, 502, 503, 504)`. -/
def retryavel (st : Nat) : Bool :=
  st == 429 || st == 500 || st == 502 || st == 503 || st == 504

/-- The `while True` loop of `consulta_brasilapi`, one fuel step per iteration.
    `net n` is the outcome of the `(n+1)`-st `requests.get`; the value is the
    returned record together with the number of requests issued and the list of
    backoff sleeps performed, and `none` on the one uncaught path (HTTP 200
    with an unparseable body, where `r.json()` raises past the handler).
    `tentativas` grows by one on every kept iteration and the loop returns once
    it exceeds `MAX_RETRIES`, so `MAX_RETRIES + 1` fuel is enough. -/
def consultaGo (cnpj : String) (net : Nat → Attempt) :
    Nat → Nat → Nat → List ℚ → Option (LookupResult × Nat × List ℚ)
  | 0, _, _, _ => none
  | fuel + 1, n, tentativas, sleeps =>
    match net n with
    | .falha e =>
        let t := tentativas + 1
        if t > MAX_RETRIES then
          some (resultadoErro cnpj ("Erro de rede: " ++ e), n + 1, sleeps)
        else consultaGo cnpj net fuel (n + 1) t (sleeps ++ [BACKOFF_BASE * 2 ^ (t - 1)])
    | .resp r =>
        if r.status = 200 then
          match r.body with
          | some d => some (monta200 cnpj d, n + 1, sleeps)
          | none => none
        else if r.status = 404 then
          some (resultadoErro cnpj ("Não encontrado: " ++ msgOuD r.body "Não encontrado"),
                n + 1, sleeps)
        else if retryavel r.status then
          let t := tentativas + 1
          if t > MAX_RETRIES then
            some (resultadoErro cnpj ("Erro após retries: " ++ msgErro r.status r.body),
                  n + 1, sleeps)
          else consultaGo cnpj net fuel (n + 1) t (sleeps ++ [BACKOFF_BASE * 2 ^ (t - 1)])
        else
          some (resultadoErro cnpj ("Erro: " ++ msgErro r.status r.body), n + 1, sleeps)

/-- Function `consulta_brasilapi` over an explicit network oracle. -/
def consulta_brasilapi (cnpj : String) (net : Nat → Attempt) :
    Option (LookupResult × Nat × List ℚ) :=
  consultaGo cnpj net (MAX_RETRIES + 1) 0 0 []

/-- Dedup `lista_unicos = sorted(set(lista_todos))`: the distinct values in
    ascending order (the sorting algorithm itself is immaterial; a structural
    insertion sort stands in for Python timsort). -/
def lista_unicos (todos : List String) : List String :=
  List.insertionSort (· ≤ ·) todos.dedup

/-- Test `startswith(("Erro", "Não encontrado"))` on the `Razão Social` field. -/
def comecaErro (nome : String) : Bool :=
  "Erro".data.isPrefixOf nome.data || "Não encontrado".data.isPrefixOf nome.data

/-- State after the consult loop: `resultados_map` in processed order, the
    `ok` / `inval` / `err` tallies, and the identifiers actually sent to
    `consulta_brasilapi`. -/
structure Loop where
  mapa : List (String × LookupResult)
  ok : Nat
  inval : Nat
  err : Nat
  chamadas : List String
  deriving DecidableEq, Repr

/-- The consult loop over `lista_unicos`.  `lookup` stands for
    `consulta_brasilapi`, fixed per identifier within one run; invalid
    identifiers get the synthetic `"CNPJ inválido (DV)"` record without any
    call. -/
def loopConsultas (lookup : String → LookupResult) : List String → Loop
  | [] => ⟨[], 0, 0, 0, []⟩
  | c :: resto =>
    let r := loopConsultas lookup resto
    if cnpj_valido c then
      let res := lookup c
      if comecaErro res.razaoSocial then
        ⟨(c, res) :: r.mapa, r.ok, r.inval, r.err + 1, c :: r.chamadas⟩
      else
        ⟨(c, res) :: r.mapa, r.ok + 1, r.inval, r.err, c :: r.chamadas⟩
    else
      ⟨(c, resultadoErro c "CNPJ inválido (DV)") :: r.mapa, r.ok, r.inval + 1, r.err, r.chamadas⟩

/-- Merge `df.merge(df_result, how="left", ...)` for a right table with unique keys:
    each left row picks up the matching right record, in left order (`none`
    when no key matches). -/
def mergeEsquerda (chaves : List String) (tabela : List (String × LookupResult)) :
    List (String × Option LookupResult) :=
  chaves.map (fun c => (c, tabela.lookup c))

/-- The script from pré-processamento to `df_final`, on the CNPJ column of the
    input rows (the other columns ride along untouched and are omitted). -/
def pipeline (lookup : String → LookupResult) (linhas : List String) :
    List (String × Option LookupResult) × Loop :=
  let todos := linhas.map normaliza_cnpj
  let unicos := lista_unicos todos
  let st := loopConsultas lookup unicos
  (mergeEsquerda todos st.mapa, st)

/-- The record the loop stores for one distinct identifier: the synthetic
    invalid record, or the registry-client result. -/
def resPara (lookup : String → LookupResult) (c : String) : LookupResult :=
  if cnpj_valido c then lookup c else resultadoErro c "CNPJ inválido (DV)"

/-- An oracle answering 503 on the first three requests and 200 with an empty
    body afterwards. -/
def netRetryDepois200 : Nat → Attempt :=
  fun n => if n < 3 then .resp ⟨503, none⟩ else .resp ⟨200, some dadosVazios⟩

/-- An oracle answering 503 with an empty parsed body on every request. -/
def netSempre503 : Nat → Attempt := fun _ => .resp ⟨503, some dadosVazios⟩

/-- A body carrying only a `message` field. -/
def dadosMensagem (m : String) : ApiData :=
  ⟨some m, none, none, none, none, none, none, none, none, none, none,
   none, none, none, none, none, none, none, none, none, none⟩

/-- An oracle answering 404 with message `"CNPJ 00000000000000 não encontrado"`. -/
def net404 : Nat → Attempt :=
  fun _ => .resp ⟨404, some (dadosMensagem "CNPJ 00000000000000 não encontrado")⟩

/-- An oracle answering 400 with message `"CNPJ inválido"`. -/
def net400 : Nat → Attempt :=
  fun _ => .resp ⟨400, some (dadosMensagem "CNPJ inválido")⟩

/-- An oracle answering 500 on every request, with a body that parses as JSON
    but carries no `message` field. -/
def net500SemMensagem : Nat → Attempt := fun _ => .resp ⟨500, some dadosVazios⟩

/-- An oracle answering 400 on every request, with a parseable body and no
    `message` field. -/
def net400SemMensagem : Nat → Attempt := fun _ => .resp ⟨400, some dadosVazios⟩

/-- An oracle answering 500 with an unparseable body on every request. -/
def net500SemCorpo : Nat → Attempt := fun _ => .resp ⟨500, none⟩

/-- An oracle answering 418 with an unparseable body on every request. -/
def net418SemCorpo : Nat → Attempt := fun _ => .resp ⟨418, none⟩

/-- A lookup oracle standing for a fixed successful network: every identifier
    resolves to the empty-body success record. -/
def lookupTrivial : String → LookupResult := fun c => monta200 c dadosVazios

/-- Three test rows: two spellings of the same valid identifier and one junk
    cell that normalizes to the all-zero (invalid) identifier. -/
def linhasTeste : List String := ["11.222.333/0001-81", "11222333000181", "xx"]

/-! ## Helper lemmas -/

lemma mem_stripWs {c : Char} {s : String} (h : c ∈ (stripWs s).data) : c ∈ s.data := by
  have h0 : (stripWs s).data
      = ((s.data.dropWhile Char.isWhitespace).reverse.dropWhile Char.isWhitespace).reverse := rfl
  rw [h0] at h
  have h1 := (List.dropWhile_sublist _).subset (List.mem_reverse.mp h)
  exact (List.dropWhile_sublist _).subset (List.mem_reverse.mp h1)

lemma parseSci_none_of_no_digit {l : List Char} (h : ∀ c ∈ l, c.isDigit = false) :
    parseSci l = none := by
  cases l with
  | nil => rfl
  | cons c t =>
      have hc := h c (by simp)
      simp [parseSci, hc]

lemma to_str_no_digit {s : String} (h : ∀ c ∈ s.data, c.isDigit = false) :
    to_str s = stripWs s := by
  have hs : ∀ c ∈ (stripWs s).data, c.isDigit = false := fun c hc => h c (mem_stripWs hc)
  simp [to_str, parseSci_none_of_no_digit hs]

lemma data_stringMk (l : List Char) : (String.mk l).data = l := rfl

lemma length_string (s : String) : s.length = s.data.length := rfl

lemma cnpj_valido_nil (s : String) (hd : (apenas_digitos s).data = []) :
    cnpj_valido s = false := by
  unfold cnpj_valido
  split
  · rfl
  next h0 t0 heq =>
    rw [hd] at heq
    exact List.noConfusion heq

lemma cnpj_valido_cons (s : String) (c : Char) (t : List Char)
    (hd : (apenas_digitos s).data = c :: t) :
    cnpj_valido s =
      if (c :: t).length ≠ 14 then false
      else if c :: t = List.replicate 14 c then false
      else ((c :: t).drop 12 ==
        [dv ((c :: t).take 12) pesos1,
         dv ((c :: t).take 12 ++ [dv ((c :: t).take 12) pesos1]) (6 :: pesos1)]) := by
  unfold cnpj_valido
  split
  next heq =>
    rw [hd] at heq
    exact List.noConfusion heq
  next h0 t0 heq =>
    rw [hd] at heq
    injection heq with h1 h2
    subst h1
    subst h2
    rfl

lemma char_eq_of_toNat_eq {a b : Char} (h : a.toNat = b.toNat) : a = b := by
  apply Char.eq_of_val_eq
  apply UInt32.eq_of_toBitVec_eq
  exact BitVec.eq_of_toNat_eq h

lemma toNat_of_isDigit {a : Char} (h : a.isDigit = true) :
    48 ≤ a.toNat ∧ a.toNat ≤ 57 := by
  simp only [Char.isDigit, decide_eq_true_eq, Bool.and_eq_true] at h
  obtain ⟨h1, h2⟩ := h
  constructor
  · exact h1
  · exact h2

lemma toNat_digitChar_lt_ten {x : Nat} (hx : x < 10) :
    (Nat.digitChar x).toNat = 48 + x := by
  interval_cases x <;> rfl

lemma isDigit_digitChar {x : Nat} (hx : x < 10) : (Nat.digitChar x).isDigit = true := by
  interval_cases x <;> rfl

lemma digitVal_digitChar {x : Nat} (hx : x < 10) : digitVal (Nat.digitChar x) = x := by
  interval_cases x <;> rfl

lemma digitVal_eq_iff {a : Char} (ha : a.isDigit = true) {x : Nat} (hx : x < 10) :
    digitVal a = x ↔ a = Nat.digitChar x := by
  obtain ⟨h1, h2⟩ := toNat_of_isDigit ha
  constructor
  · intro h
    apply char_eq_of_toNat_eq
    rw [toNat_digitChar_lt_ten hx]
    simp only [digitVal] at h
    omega
  · intro h
    rw [h]
    exact digitVal_digitChar hx

lemma digitoSpec_lt_ten (ds : List Nat) (pesos : List Nat) : digitoSpec ds pesos < 10 := by
  simp only [digitoSpec]
  have h : (((ds.zip pesos).map (fun dp => dp.1 * dp.2)).sum) % 11 < 11 := Nat.mod_lt _ (by omega)
  split
  · omega
  · omega

/-- The script's `dv` computes, as a character, exactly the spec's check digit
    of the digit values. -/
lemma dv_eq_digitChar (nums : List Char) (pesos : List Nat) :
    dv nums pesos = Nat.digitChar (digitoSpec (nums.map digitVal) pesos) := by
  have hsum : (((nums.map digitVal).zip pesos).map (fun dp => dp.1 * dp.2)).sum
      = ((nums.zip pesos).map (fun np => digitVal np.1 * np.2)).sum := by
    rw [List.zip_map_left, List.map_map]
    rfl
  simp only [dv, digitoSpec, hsum]
  split
  · rfl
  · rfl

lemma map_digitVal_pair {a b : Char} (ha : a.isDigit = true) (hb : b.isDigit = true)
    {x y : Nat} (hx : x < 10) (hy : y < 10) :
    [a, b].map digitVal = [x, y] ↔ [a, b] = [Nat.digitChar x, Nat.digitChar y] := by
  simp only [List.map_cons, List.map_nil, List.cons.injEq, and_true]
  rw [digitVal_eq_iff ha hx, digitVal_eq_iff hb hy]

/-! ## Claims about the normalizer and the validator -/

/-- C5: `normaliza_cnpj` is a total function whose output always has length at
least 14 and consists only of digit characters, and an input containing no
digit normalizes to the 14-character all-zero string. -/
theorem c5_normaliza_total (s : String) :
    14 ≤ (normaliza_cnpj s).length ∧
    (∀ c ∈ (normaliza_cnpj s).data, c.isDigit = true) ∧
    ((∀ c ∈ s.data, c.isDigit = false) → normaliza_cnpj s = "00000000000000") := by
  refine ⟨?_, ?_, ?_⟩
  · have h : (normaliza_cnpj s).length
        = (14 - (apenas_digitos (to_str s)).length) + (apenas_digitos (to_str s)).length := by
      show (List.replicate (14 - (apenas_digitos (to_str s)).length) '0'
          ++ (apenas_digitos (to_str s)).data).length = _
      rw [List.length_append, List.length_replicate, length_string]
    omega
  · intro c hc
    have hd0 : (normaliza_cnpj s).data
        = List.replicate (14 - (apenas_digitos (to_str s)).length) '0'
          ++ (to_str s).data.filter Char.isDigit := rfl
    rw [hd0] at hc
    rcases List.mem_append.mp hc with h | h
    · rw [List.eq_of_mem_replicate h]; decide
    · exact List.of_mem_filter h
  · intro h
    have hts : ∀ c ∈ (to_str s).data, c.isDigit = false := by
      rw [to_str_no_digit h]; exact fun c hc => h c (mem_stripWs hc)
    have hfil : (to_str s).data.filter Char.isDigit = [] := by
      refine List.filter_eq_nil_iff.mpr ?_
      intro c hc
      simp [hts c hc]
    show zfill (apenas_digitos (to_str s)) 14 = _
    simp only [apenas_digitos, hfil]
    decide

/-- Witness for C5 at the digit-free input `"abc"`. -/
theorem c5_normaliza_witness : normaliza_cnpj "abc" = "00000000000000" :=
  (c5_normaliza_total "abc").2.2 (by decide)

/-- C4: `cnpj_valido` rejects every 14-character repunit, digit or not. -/
theorem c4_repunit (s : String) (ch : Char) (h : s.data = List.replicate 14 ch) :
    cnpj_valido s = false := by
  by_cases hdig : ch.isDigit
  · have hfil : (apenas_digitos s).data = ch :: List.replicate 13 ch := by
      show s.data.filter Char.isDigit = _
      rw [h, List.filter_eq_self.mpr ?_]
      · rfl
      · intro c hc
        rw [List.eq_of_mem_replicate hc]
        exact hdig
    rw [cnpj_valido_cons s ch (List.replicate 13 ch) hfil]
    rw [if_neg (by simp), if_pos (show ch :: List.replicate 13 ch = List.replicate 14 ch from rfl)]
  · have hfil : (apenas_digitos s).data = [] := by
      show s.data.filter Char.isDigit = _
      rw [h]
      refine List.filter_eq_nil_iff.mpr ?_
      intro c hc
      rw [List.eq_of_mem_replicate hc]
      simp [hdig]
    exact cnpj_valido_nil s hfil

/-- Witness for C4 at the all-ones repunit. -/
theorem c4_repunit_witness : cnpj_valido "11111111111111" = false :=
  c4_repunit "11111111111111" '1' (by decide)

/-- C9 as amended: when the string has a number of digit characters other
than 14 (the length the script actually tests, after stripping non-digits),
`cnpj_valido` returns false. -/
theorem c9_comprimento (s : String) (h : (apenas_digitos s).length ≠ 14) :
    cnpj_valido s = false := by
  rcases hd : (apenas_digitos s).data with _ | ⟨c, t⟩
  · exact cnpj_valido_nil s hd
  · have hlen : (c :: t).length ≠ 14 := by
      rw [← hd, ← length_string]
      exact h
    rw [cnpj_valido_cons s c t hd, if_pos hlen]

/-- C2: for every 14-digit non-repunit string, `cnpj_valido` accepts exactly
when the last two digits are the spec's two check digits (first digit from the
weighted sum of the first 12 digits with weights `pesos1` mod 11, second over
the first 12 digits plus the first check digit with weights `6 :: pesos1`);
in particular the published fixture `"11222333000181"` is accepted and
`"11222333000180"` rejected. -/
theorem c2_digitos_verificadores (s : String)
    (hlen : s.data.length = 14) (hdig : ∀ c ∈ s.data, c.isDigit = true)
    (hrep : s.data ≠ List.replicate 14 s.data.headI) :
    (cnpj_valido s = true ↔
      (s.data.drop 12).map digitVal =
        [digitoSpec ((s.data.take 12).map digitVal) pesos1,
         digitoSpec ((s.data.take 12).map digitVal
            ++ [digitoSpec ((s.data.take 12).map digitVal) pesos1]) (6 :: pesos1)]) ∧
    cnpj_valido "11222333000181" = true ∧ cnpj_valido "11222333000180" = false := by
  refine ⟨?_, by decide, by decide⟩
  have hfil : (apenas_digitos s).data = s.data := by
    show s.data.filter Char.isDigit = s.data
    exact List.filter_eq_self.mpr hdig
  rcases hsd : s.data with _ | ⟨c, t⟩
  · rw [hsd] at hlen
    simp at hlen
  · rw [hsd] at hlen hdig hrep hfil
    simp only [List.headI] at hrep
    rw [cnpj_valido_cons s c t hfil]
    rw [if_neg (show ¬(c :: t).length ≠ 14 from not_ne_iff.mpr hlen)]
    rw [if_neg hrep]
    rw [beq_iff_eq]
    rw [dv_eq_digitChar, dv_eq_digitChar, List.map_append]
    have hs1 := digitoSpec_lt_ten (((c :: t).take 12).map digitVal) pesos1
    have hmap1 : [Nat.digitChar (digitoSpec (((c :: t).take 12).map digitVal) pesos1)].map digitVal
        = [digitoSpec (((c :: t).take 12).map digitVal) pesos1] := by
      rw [List.map_cons, List.map_nil, digitVal_digitChar hs1]
    rw [hmap1]
    have h2 : ((c :: t).drop 12).length = 2 := by
      rw [List.length_drop, hlen]
    obtain ⟨a, b, hab⟩ := List.length_eq_two.mp h2
    have ha : a.isDigit = true :=
      hdig a ((List.drop_sublist 12 (c :: t)).subset (by rw [hab]; simp))
    have hb : b.isDigit = true :=
      hdig b ((List.drop_sublist 12 (c :: t)).subset (by rw [hab]; simp))
    rw [hab]
    exact (map_digitVal_pair ha hb hs1 (digitoSpec_lt_ten _ _)).symm

/-- Witness for C2 at the published fixture. -/
theorem c2_digitos_witness : cnpj_valido "11222333000181" = true :=
  (c2_digitos_verificadores "11222333000181" (by decide) (by decide) (by decide)).2.1

/-- Witness for the amended C9 at `"123"`. -/
theorem c9_comprimento_witness : cnpj_valido "123" = false :=
  c9_comprimento "123" (by decide)

/-- Counterexample to C9 as stated: a 15-character input whose non-digit is
stripped before the length test, so it validates. -/
theorem c9_counterexample :
    "11222333000181x".length ≠ 14 ∧ cnpj_valido "11222333000181x" = true := by
  constructor
  · decide
  · decide

/-! ## Registry-client step lemmas -/

lemma retryavel_ne {st : Nat} (h : retryavel st = true) : st ≠ 200 ∧ st ≠ 404 := by
  have h2 : st = 429 ∨ st = 500 ∨ st = 502 ∨ st = 503 ∨ st = 504 := by
    simp only [retryavel, Bool.or_eq_true, beq_iff_eq] at h
    tauto
  rcases h2 with h2 | h2 | h2 | h2 | h2 <;> subst h2 <;> exact ⟨by decide, by decide⟩

lemma consultaGo_200 (cnpj : String) (net : Nat → Attempt) (fuel n t : Nat) (sleeps : List ℚ)
    (d : ApiData) (hnet : net n = .resp ⟨200, some d⟩) :
    consultaGo cnpj net (fuel + 1) n t sleeps = some (monta200 cnpj d, n + 1, sleeps) := by
  simp [consultaGo, hnet]

lemma consultaGo_404 (cnpj : String) (net : Nat → Attempt) (fuel n t : Nat) (sleeps : List ℚ)
    (b : Option ApiData) (hnet : net n = .resp ⟨404, b⟩) :
    consultaGo cnpj net (fuel + 1) n t sleeps =
      some (resultadoErro cnpj ("Não encontrado: " ++ msgOuD b "Não encontrado"),
        n + 1, sleeps) := by
  simp [consultaGo, hnet]

lemma consultaGo_outro (cnpj : String) (net : Nat → Attempt) (fuel n t : Nat) (sleeps : List ℚ)
    (st : Nat) (b : Option ApiData) (hnet : net n = .resp ⟨st, b⟩)
    (h200 : st ≠ 200) (h404 : st ≠ 404) (hret : retryavel st = false) :
    consultaGo cnpj net (fuel + 1) n t sleeps =
      some (resultadoErro cnpj ("Erro: " ++ msgErro st b), n + 1, sleeps) := by
  simp [consultaGo, hnet, h200, h404, hret]

lemma consultaGo_retry (cnpj : String) (net : Nat → Attempt) (fuel n t : Nat) (sleeps : List ℚ)
    (st : Nat) (b : Option ApiData) (hnet : net n = .resp ⟨st, b⟩)
    (hret : retryavel st = true) (ht : t < MAX_RETRIES) :
    consultaGo cnpj net (fuel + 1) n t sleeps =
      consultaGo cnpj net fuel (n + 1) (t + 1) (sleeps ++ [BACKOFF_BASE * 2 ^ t]) := by
  obtain ⟨h200, h404⟩ := retryavel_ne hret
  have hgt : ¬ t + 1 > MAX_RETRIES := by omega
  simp [consultaGo, hnet, h200, h404, hret, hgt]

lemma consultaGo_exausto (cnpj : String) (net : Nat → Attempt) (fuel n t : Nat) (sleeps : List ℚ)
    (st : Nat) (b : Option ApiData) (hnet : net n = .resp ⟨st, b⟩)
    (hret : retryavel st = true) (ht : MAX_RETRIES ≤ t) :
    consultaGo cnpj net (fuel + 1) n t sleeps =
      some (resultadoErro cnpj ("Erro após retries: " ++ msgErro st b), n + 1, sleeps) := by
  obtain ⟨h200, h404⟩ := retryavel_ne hret
  have hgt : t + 1 > MAX_RETRIES := by omega
  simp [consultaGo, hnet, h200, h404, hret, hgt]

/-! ## Claims about the registry client -/

/-- C3: with 503 on the first `MAX_RETRIES` attempts and 200 on the next, the
client returns the parsed success record after `MAX_RETRIES + 1` requests; with
`MAX_RETRIES + 1` consecutive 503s it returns an "Erro após retries" record; in
both runs it sleeps `BACKOFF_BASE * 2 ^ (attempt - 1)` between attempts. -/
theorem c3_retry_backoff (cnpj : String) (net1 net2 : Nat → Attempt) (d : ApiData)
    (h1a : ∀ n < MAX_RETRIES, ∃ b, net1 n = .resp ⟨503, b⟩)
    (h1b : net1 MAX_RETRIES = .resp ⟨200, some d⟩)
    (h2 : ∀ n ≤ MAX_RETRIES, ∃ b, net2 n = .resp ⟨503, b⟩) :
    consulta_brasilapi cnpj net1 =
      some (monta200 cnpj d, MAX_RETRIES + 1,
        (List.range MAX_RETRIES).map (fun k => BACKOFF_BASE * 2 ^ k)) ∧
    (∃ m, consulta_brasilapi cnpj net2 =
      some (resultadoErro cnpj ("Erro após retries: " ++ m), MAX_RETRIES + 1,
        (List.range MAX_RETRIES).map (fun k => BACKOFF_BASE * 2 ^ k))) := by
  constructor
  · obtain ⟨b0, hb0⟩ := h1a 0 (by decide)
    obtain ⟨b1, hb1⟩ := h1a 1 (by decide)
    obtain ⟨b2, hb2⟩ := h1a 2 (by decide)
    calc consulta_brasilapi cnpj net1
        = consultaGo cnpj net1 4 0 0 [] := rfl
      _ = consultaGo cnpj net1 3 1 1 [BACKOFF_BASE * 2 ^ 0] :=
          consultaGo_retry cnpj net1 3 0 0 [] 503 b0 hb0 rfl (by decide)
      _ = consultaGo cnpj net1 2 2 2 [BACKOFF_BASE * 2 ^ 0, BACKOFF_BASE * 2 ^ 1] :=
          consultaGo_retry cnpj net1 2 1 1 [BACKOFF_BASE * 2 ^ 0] 503 b1 hb1 rfl (by decide)
      _ = consultaGo cnpj net1 1 3 3
            [BACKOFF_BASE * 2 ^ 0, BACKOFF_BASE * 2 ^ 1, BACKOFF_BASE * 2 ^ 2] :=
          consultaGo_retry cnpj net1 1 2 2 [BACKOFF_BASE * 2 ^ 0, BACKOFF_BASE * 2 ^ 1]
            503 b2 hb2 rfl (by decide)
      _ = some (monta200 cnpj d, 4,
            [BACKOFF_BASE * 2 ^ 0, BACKOFF_BASE * 2 ^ 1, BACKOFF_BASE * 2 ^ 2]) :=
          consultaGo_200 cnpj net1 0 3 3
            [BACKOFF_BASE * 2 ^ 0, BACKOFF_BASE * 2 ^ 1, BACKOFF_BASE * 2 ^ 2] d h1b
  · obtain ⟨b0, hb0⟩ := h2 0 (by decide)
    obtain ⟨b1, hb1⟩ := h2 1 (by decide)
    obtain ⟨b2, hb2⟩ := h2 2 (by decide)
    obtain ⟨b3, hb3⟩ := h2 3 (by decide)
    refine ⟨msgErro 503 b3, ?_⟩
    calc consulta_brasilapi cnpj net2
        = consultaGo cnpj net2 4 0 0 [] := rfl
      _ = consultaGo cnpj net2 3 1 1 [BACKOFF_BASE * 2 ^ 0] :=
          consultaGo_retry cnpj net2 3 0 0 [] 503 b0 hb0 rfl (by decide)
      _ = consultaGo cnpj net2 2 2 2 [BACKOFF_BASE * 2 ^ 0, BACKOFF_BASE * 2 ^ 1] :=
          consultaGo_retry cnpj net2 2 1 1 [BACKOFF_BASE * 2 ^ 0] 503 b1 hb1 rfl (by decide)
      _ = consultaGo cnpj net2 1 3 3
            [BACKOFF_BASE * 2 ^ 0, BACKOFF_BASE * 2 ^ 1, BACKOFF_BASE * 2 ^ 2] :=
          consultaGo_retry cnpj net2 1 2 2 [BACKOFF_BASE * 2 ^ 0, BACKOFF_BASE * 2 ^ 1]
            503 b2 hb2 rfl (by decide)
      _ = some (resultadoErro cnpj ("Erro após retries: " ++ msgErro 503 b3), 4,
            [BACKOFF_BASE * 2 ^ 0, BACKOFF_BASE * 2 ^ 1, BACKOFF_BASE * 2 ^ 2]) :=
          consultaGo_exausto cnpj net2 0 3 3
            [BACKOFF_BASE * 2 ^ 0, BACKOFF_BASE * 2 ^ 1, BACKOFF_BASE * 2 ^ 2]
            503 b3 hb3 rfl (by decide)

/-- Witness for C3: both oracles evaluated concretely. -/
theorem c3_retry_backoff_witness :
    consulta_brasilapi "11222333000181" netRetryDepois200 =
      some (monta200 "11222333000181" dadosVazios, 4,
        [BACKOFF_BASE * 2 ^ 0, BACKOFF_BASE * 2 ^ 1, BACKOFF_BASE * 2 ^ 2]) ∧
    (∃ m, consulta_brasilapi "11222333000181" netSempre503 =
      some (resultadoErro "11222333000181" ("Erro após retries: " ++ m), 4,
        [BACKOFF_BASE * 2 ^ 0, BACKOFF_BASE * 2 ^ 1, BACKOFF_BASE * 2 ^ 2])) := by
  have h := c3_retry_backoff "11222333000181" netRetryDepois200 netSempre503 dadosVazios
    (by intro n hn; exact ⟨none, by simp [netRetryDepois200, show n < 3 from hn]⟩)
    (by rfl)
    (by intro n hn; exact ⟨some dadosVazios, rfl⟩)
  exact h

/-- C6: a 404 or any other non-retryable status returns after the single
request, with no sleep and no further request, as `"Não encontrado: "` plus
the provider message on 404 and `"Erro: "` plus the message otherwise (all
other fields of the record empty, as `resultadoErro` builds it). -/
theorem c6_sem_retry (cnpj : String) (net : Nat → Attempt) (st : Nat) (d : ApiData) (m : String)
    (h0 : net 0 = .resp ⟨st, some d⟩) (hm : d.message = some m)
    (h200 : st ≠ 200) (hret : retryavel st = false) :
    (st = 404 → consulta_brasilapi cnpj net =
        some (resultadoErro cnpj ("Não encontrado: " ++ m), 1, [])) ∧
    (st ≠ 404 → consulta_brasilapi cnpj net =
        some (resultadoErro cnpj ("Erro: " ++ m), 1, [])) := by
  constructor
  · intro h404
    subst h404
    have h := consultaGo_404 cnpj net 3 0 0 [] (some d) h0
    rw [show msgOuD (some d) "Não encontrado" = m by simp [msgOuD, hm]] at h
    exact h
  · intro h404
    have h := consultaGo_outro cnpj net 3 0 0 [] st (some d) h0 h200 h404 hret
    rw [show msgErro st (some d) = m by simp [msgErro, hm]] at h
    exact h

/-- Witness for C6 at a 404 and at a 400 oracle. -/
theorem c6_sem_retry_witness :
    consulta_brasilapi "00000000000000" net404 =
      some (resultadoErro "00000000000000"
        ("Não encontrado: CNPJ 00000000000000 não encontrado"), 1, []) ∧
    consulta_brasilapi "00000000000000" net400 =
      some (resultadoErro "00000000000000" ("Erro: CNPJ inválido"), 1, []) := by
  constructor
  · exact (c6_sem_retry "00000000000000" net404 404
      (dadosMensagem "CNPJ 00000000000000 não encontrado")
      "CNPJ 00000000000000 não encontrado" rfl rfl (by decide) (by decide)).1 rfl
  · exact (c6_sem_retry "00000000000000" net400 400
      (dadosMensagem "CNPJ inválido") "CNPJ inválido" rfl rfl (by decide) (by decide)).2
      (by decide)

/-- Counterexample to C7 as stated: with a parseable body that has no `message`
field, the name after retry exhaustion is exactly `"Erro após retries: "` (an
empty message), which does not contain the status code `500`; likewise the
terminal branch yields `"Erro: "` without `400`. -/
theorem c7_counterexample :
    (consulta_brasilapi "00000000000000" net500SemMensagem).map (fun p => p.1.razaoSocial)
      = some "Erro após retries: " ∧
    (consulta_brasilapi "00000000000000" net400SemMensagem).map (fun p => p.1.razaoSocial)
      = some "Erro: " ∧
    (¬ ∃ a b : String,
      "Erro após retries: " = "Erro após retries: " ++ a ++ toString (500 : Nat) ++ b) ∧
    (¬ ∃ a b : String, "Erro: " = "Erro: " ++ a ++ toString (400 : Nat) ++ b) := by
  refine ⟨by decide, by decide, ?_, ?_⟩
  · rintro ⟨a, b, h⟩
    have hlen := congrArg String.length h
    rw [String.length_append, String.length_append, String.length_append] at hlen
    have e1 : ("Erro após retries: ").length = 19 := rfl
    have e2 : (toString (500 : Nat)).length = 3 := rfl
    rw [e1, e2] at hlen
    omega
  · rintro ⟨a, b, h⟩
    have hlen := congrArg String.length h
    rw [String.length_append, String.length_append, String.length_append] at hlen
    have e1 : ("Erro: ").length = 6 := rfl
    have e2 : (toString (400 : Nat)).length = 3 := rfl
    rw [e1, e2] at hlen
    omega

/-- C7 as amended: on retry exhaustion or a terminal non-404 status, the name
is the corresponding prefix plus the extracted message, where the message is
`"HTTP <status>"` exactly when the response body cannot be parsed as JSON, the
provider message when one is present, and the empty string when the body
parses without a `message` field. -/
theorem c7_mensagem_http (cnpj : String) (net1 net2 : Nat → Attempt)
    (sts : Nat → Nat) (bs : Nat → Option ApiData)
    (hnet1 : ∀ n ≤ MAX_RETRIES, net1 n = .resp ⟨sts n, bs n⟩)
    (hret1 : ∀ n ≤ MAX_RETRIES, retryavel (sts n) = true)
    (st2 : Nat) (b2 : Option ApiData)
    (h2 : net2 0 = .resp ⟨st2, b2⟩) (h2a : st2 ≠ 200) (h2b : st2 ≠ 404)
    (h2c : retryavel st2 = false) :
    consulta_brasilapi cnpj net1 =
      some (resultadoErro cnpj
          ("Erro após retries: " ++ msgErro (sts MAX_RETRIES) (bs MAX_RETRIES)),
        MAX_RETRIES + 1, (List.range MAX_RETRIES).map (fun k => BACKOFF_BASE * 2 ^ k)) ∧
    consulta_brasilapi cnpj net2 =
      some (resultadoErro cnpj ("Erro: " ++ msgErro st2 b2), 1, []) ∧
    (∀ st : Nat, msgErro st none = "HTTP " ++ toString st) ∧
    (∀ st : Nat, ∀ d : ApiData, msgErro st (some d) = d.message.getD "") := by
  refine ⟨?_, ?_, fun st => rfl, fun st d => rfl⟩
  · calc consulta_brasilapi cnpj net1
        = consultaGo cnpj net1 4 0 0 [] := rfl
      _ = consultaGo cnpj net1 3 1 1 [BACKOFF_BASE * 2 ^ 0] :=
          consultaGo_retry cnpj net1 3 0 0 [] (sts 0) (bs 0)
            (hnet1 0 (by decide)) (hret1 0 (by decide)) (by decide)
      _ = consultaGo cnpj net1 2 2 2 [BACKOFF_BASE * 2 ^ 0, BACKOFF_BASE * 2 ^ 1] :=
          consultaGo_retry cnpj net1 2 1 1 [BACKOFF_BASE * 2 ^ 0] (sts 1) (bs 1)
            (hnet1 1 (by decide)) (hret1 1 (by decide)) (by decide)
      _ = consultaGo cnpj net1 1 3 3
            [BACKOFF_BASE * 2 ^ 0, BACKOFF_BASE * 2 ^ 1, BACKOFF_BASE * 2 ^ 2] :=
          consultaGo_retry cnpj net1 1 2 2 [BACKOFF_BASE * 2 ^ 0, BACKOFF_BASE * 2 ^ 1]
            (sts 2) (bs 2) (hnet1 2 (by decide)) (hret1 2 (by decide)) (by decide)
      _ = some (resultadoErro cnpj ("Erro após retries: " ++ msgErro (sts 3) (bs 3)), 4,
            [BACKOFF_BASE * 2 ^ 0, BACKOFF_BASE * 2 ^ 1, BACKOFF_BASE * 2 ^ 2]) :=
          consultaGo_exausto cnpj net1 0 3 3
            [BACKOFF_BASE * 2 ^ 0, BACKOFF_BASE * 2 ^ 1, BACKOFF_BASE * 2 ^ 2]
            (sts 3) (bs 3) (hnet1 3 (by decide)) (hret1 3 (by decide)) (by decide)
  · exact consultaGo_outro cnpj net2 3 0 0 [] st2 b2 h2 h2a h2b h2c

/-- Witness for the amended C7: unparseable bodies produce the
`"HTTP <status>"` fallback after the prefixes. -/
theorem c7_mensagem_http_witness :
    consulta_brasilapi "00000000000000" net500SemCorpo =
      some (resultadoErro "00000000000000" "Erro após retries: HTTP 500", 4,
        [BACKOFF_BASE * 2 ^ 0, BACKOFF_BASE * 2 ^ 1, BACKOFF_BASE * 2 ^ 2]) ∧
    consulta_brasilapi "00000000000000" net418SemCorpo =
      some (resultadoErro "00000000000000" "Erro: HTTP 418", 1, []) := by
  have h := c7_mensagem_http "00000000000000" net500SemCorpo net418SemCorpo
    (fun _ => 500) (fun _ => none) (fun n _ => rfl) (fun n _ => rfl)
    418 none rfl (by decide) (by decide) (by decide)
  exact ⟨h.1, h.2.1⟩

/-! ## Pipeline lemmas -/

lemma loopConsultas_mapa (lookup : String → LookupResult) (l : List String) :
    (loopConsultas lookup l).mapa = l.map (fun c => (c, resPara lookup c)) := by
  induction l with
  | nil => rfl
  | cons c resto ih =>
      by_cases hv : cnpj_valido c = true
      · by_cases he : comecaErro (lookup c).razaoSocial = true
        · simp [loopConsultas, hv, he, ih, resPara]
        · simp [loopConsultas, hv, he, ih, resPara]
      · simp [loopConsultas, hv, ih, resPara]

lemma loopConsultas_chamadas (lookup : String → LookupResult) (l : List String) :
    (loopConsultas lookup l).chamadas = l.filter cnpj_valido := by
  induction l with
  | nil => rfl
  | cons c resto ih =>
      by_cases hv : cnpj_valido c = true
      · by_cases he : comecaErro (lookup c).razaoSocial = true
        · simp [loopConsultas, hv, he, ih]
        · simp [loopConsultas, hv, he, ih]
      · simp [loopConsultas, hv, ih]

lemma loopConsultas_ok (lookup : String → LookupResult) (l : List String) :
    (loopConsultas lookup l).ok
      = l.countP (fun c => cnpj_valido c && !(comecaErro (lookup c).razaoSocial)) := by
  induction l with
  | nil => rfl
  | cons c resto ih =>
      by_cases hv : cnpj_valido c = true
      · by_cases he : comecaErro (lookup c).razaoSocial = true
        · simp [loopConsultas, hv, he, ih, List.countP_cons]
        · simp [loopConsultas, hv, he, ih, List.countP_cons]
      · simp [loopConsultas, hv, ih, List.countP_cons]

lemma loopConsultas_inval (lookup : String → LookupResult) (l : List String) :
    (loopConsultas lookup l).inval = l.countP (fun c => !(cnpj_valido c)) := by
  induction l with
  | nil => rfl
  | cons c resto ih =>
      by_cases hv : cnpj_valido c = true
      · by_cases he : comecaErro (lookup c).razaoSocial = true
        · simp [loopConsultas, hv, he, ih, List.countP_cons]
        · simp [loopConsultas, hv, he, ih, List.countP_cons]
      · simp [loopConsultas, hv, ih, List.countP_cons]

lemma loopConsultas_err (lookup : String → LookupResult) (l : List String) :
    (loopConsultas lookup l).err
      = l.countP (fun c => cnpj_valido c && comecaErro (lookup c).razaoSocial) := by
  induction l with
  | nil => rfl
  | cons c resto ih =>
      by_cases hv : cnpj_valido c = true
      · by_cases he : comecaErro (lookup c).razaoSocial = true
        · simp [loopConsultas, hv, he, ih, List.countP_cons]
        · simp [loopConsultas, hv, he, ih, List.countP_cons]
      · simp [loopConsultas, hv, ih, List.countP_cons]

lemma loopConsultas_soma (lookup : String → LookupResult) (l : List String) :
    (loopConsultas lookup l).ok + (loopConsultas lookup l).inval
      + (loopConsultas lookup l).err = l.length := by
  induction l with
  | nil => rfl
  | cons c resto ih =>
      by_cases hv : cnpj_valido c = true
      · by_cases he : comecaErro (lookup c).razaoSocial = true
        · simp [loopConsultas, hv, he]
          omega
        · simp [loopConsultas, hv, he]
          omega
      · simp [loopConsultas, hv]
        omega

lemma lookup_map_graph (f : String → LookupResult) (l : List String) (c : String) (h : c ∈ l) :
    (l.map (fun a => (a, f a))).lookup c = some (f c) := by
  induction l with
  | nil => cases h
  | cons a resto ih =>
      rcases List.mem_cons.mp h with h1 | h1
      · subst h1
        simp [List.lookup]
      · by_cases hca : c = a
        · subst hca
          simp [List.lookup]
        · have hbeq : (c == a) = false := beq_eq_false_iff_ne.mpr hca
          simp [List.lookup, hbeq, ih h1]

lemma perm_lista_unicos (l : List String) : List.Perm (lista_unicos l) l.dedup :=
  List.perm_insertionSort _ l.dedup

lemma nodup_lista_unicos (l : List String) : (lista_unicos l).Nodup :=
  (perm_lista_unicos l).nodup_iff.mpr (List.nodup_dedup l)

lemma mem_lista_unicos {c : String} {l : List String} (h : c ∈ l) : c ∈ lista_unicos l := by
  rw [(perm_lista_unicos l).mem_iff, List.mem_dedup]
  exact h

/-! ## Claims about the enrichment pipeline -/

/-- C1: the pipeline issues at most one lookup per identifier, produces one
output row per input row in input order, and every row carries the single
cached record of its normalized identifier, so rows sharing an identifier
carry identical records. -/
theorem c1_dedup_ordem_merge (lookup : String → LookupResult) (linhas : List String) :
    (pipeline lookup linhas).1.length = linhas.length ∧
    (pipeline lookup linhas).1.map Prod.fst = linhas.map normaliza_cnpj ∧
    (∀ c : String, (pipeline lookup linhas).2.chamadas.count c ≤ 1) ∧
    (∀ i : Nat, (pipeline lookup linhas).1[i]? =
        ((linhas.map normaliza_cnpj)[i]?).map (fun c => (c, some (resPara lookup c)))) ∧
    (∀ i j : Nat, (linhas.map normaliza_cnpj)[i]? = (linhas.map normaliza_cnpj)[j]? →
        ((pipeline lookup linhas).1[i]?).map Prod.snd =
          ((pipeline lookup linhas).1[j]?).map Prod.snd) := by
  have hsaida : (pipeline lookup linhas).1
      = (linhas.map normaliza_cnpj).map (fun c =>
          (c, ((loopConsultas lookup (lista_unicos (linhas.map normaliza_cnpj))).mapa).lookup c))
      := rfl
  have hmain : ∀ i : Nat, (pipeline lookup linhas).1[i]? =
      ((linhas.map normaliza_cnpj)[i]?).map (fun c => (c, some (resPara lookup c))) := by
    intro i
    rw [hsaida, List.getElem?_map]
    rcases hT : (linhas.map normaliza_cnpj)[i]? with _ | c
    · rfl
    · have hc : c ∈ linhas.map normaliza_cnpj := by
        have := List.getElem?_mem hT
        exact this
      have hmapa : ((loopConsultas lookup (lista_unicos (linhas.map normaliza_cnpj))).mapa).lookup c
          = some (resPara lookup c) := by
        rw [loopConsultas_mapa]
        exact lookup_map_graph (resPara lookup) _ c (mem_lista_unicos hc)
      simp [hmapa]
  refine ⟨?_, ?_, ?_, hmain, ?_⟩
  · rw [hsaida, List.length_map, List.length_map]
  · rw [hsaida, List.map_map]
    have : (Prod.fst ∘ fun c =>
        (c, ((loopConsultas lookup (lista_unicos (linhas.map normaliza_cnpj))).mapa).lookup c))
        = id := rfl
    rw [this, List.map_id]
  · intro c
    have hcham : (pipeline lookup linhas).2.chamadas
        = (lista_unicos (linhas.map normaliza_cnpj)).filter cnpj_valido :=
      loopConsultas_chamadas lookup _
    rw [hcham]
    calc ((lista_unicos (linhas.map normaliza_cnpj)).filter cnpj_valido).count c
        ≤ (lista_unicos (linhas.map normaliza_cnpj)).count c :=
          (List.filter_sublist _).count_le c
      _ ≤ 1 := List.nodup_iff_count_le_one.mp (nodup_lista_unicos _) c
  · intro i j hij
    rw [hmain i, hmain j, hij]

/-- Witness for C1: three rows, the first two sharing a normalized identifier
and therefore a record. -/
theorem c1_dedup_ordem_merge_witness :
    (pipeline lookupTrivial linhasTeste).1.length = 3 ∧
    ((pipeline lookupTrivial linhasTeste).1[0]?).map Prod.snd =
      ((pipeline lookupTrivial linhasTeste).1[1]?).map Prod.snd := by
  have h := c1_dedup_ordem_merge lookupTrivial linhasTeste
  exact ⟨h.1.trans rfl, h.2.2.2.2 0 1 (by decide)⟩

/-- Counterexample to C8 as stated: two rows sharing one invalid identifier
give an invalid counter of 1 (the claim requires 2 invalid rows), and a
success counter of 0 while both rows carry a name that does not start with
`"Erro"` or `"Não encontrado"`. -/
theorem c8_counterexample :
    (pipeline lookupTrivial ["0", "0"]).2.inval = 1 ∧
    ((["0", "0"].map normaliza_cnpj).countP (fun c => !(cnpj_valido c))) = 2 ∧
    (pipeline lookupTrivial ["0", "0"]).2.ok = 0 ∧
    ((pipeline lookupTrivial ["0", "0"]).1.countP
      (fun p => !(comecaErro ((p.2.map LookupResult.razaoSocial).getD "")))) = 2 := by
  refine ⟨by decide, by decide, by decide, by decide⟩

/-- C8 as amended: the three counters count distinct normalized identifiers,
not rows — `ok` the distinct valid identifiers whose record name does not
start with `"Erro"` or `"Não encontrado"`, `inval` the distinct invalid
identifiers, and `err` the distinct valid identifiers with such a prefix. -/
theorem c8_contadores (lookup : String → LookupResult) (linhas : List String) :
    (pipeline lookup linhas).2.ok = ((linhas.map normaliza_cnpj).dedup).countP
        (fun c => cnpj_valido c && !(comecaErro (lookup c).razaoSocial)) ∧
    (pipeline lookup linhas).2.inval =
      ((linhas.map normaliza_cnpj).dedup).countP (fun c => !(cnpj_valido c)) ∧
    (pipeline lookup linhas).2.err = ((linhas.map normaliza_cnpj).dedup).countP
        (fun c => cnpj_valido c && comecaErro (lookup c).razaoSocial) := by
  refine ⟨?_, ?_, ?_⟩
  · rw [show (pipeline lookup linhas).2.ok
        = (loopConsultas lookup (lista_unicos (linhas.map normaliza_cnpj))).ok from rfl]
    rw [loopConsultas_ok, (perm_lista_unicos (linhas.map normaliza_cnpj)).countP_eq]
  · rw [show (pipeline lookup linhas).2.inval
        = (loopConsultas lookup (lista_unicos (linhas.map normaliza_cnpj))).inval from rfl]
    rw [loopConsultas_inval, (perm_lista_unicos (linhas.map normaliza_cnpj)).countP_eq]
  · rw [show (pipeline lookup linhas).2.err
        = (loopConsultas lookup (lista_unicos (linhas.map normaliza_cnpj))).err from rfl]
    rw [loopConsultas_err, (perm_lista_unicos (linhas.map normaliza_cnpj)).countP_eq]

/-- C10: every distinct normalized identifier lands in exactly one counter, so
the three counters sum to the number of distinct identifiers, and the
identifier-to-record mapping holds exactly one record per distinct identifier
(its keys are the distinct identifiers, without duplicates). -/
theorem c10_unicidade (lookup : String → LookupResult) (linhas : List String) :
    (pipeline lookup linhas).2.ok + (pipeline lookup linhas).2.inval +
        (pipeline lookup linhas).2.err = ((linhas.map normaliza_cnpj).dedup).length ∧
    ((pipeline lookup linhas).2.mapa).map Prod.fst =
      lista_unicos (linhas.map normaliza_cnpj) ∧
    (lista_unicos (linhas.map normaliza_cnpj)).Nodup ∧
    (∀ c ∈ linhas.map normaliza_cnpj,
      ((pipeline lookup linhas).2.mapa).lookup c = some (resPara lookup c)) := by
  refine ⟨?_, ?_, nodup_lista_unicos _, ?_⟩
  · have h := loopConsultas_soma lookup (lista_unicos (linhas.map normaliza_cnpj))
    rw [show (pipeline lookup linhas).2
        = loopConsultas lookup (lista_unicos (linhas.map normaliza_cnpj)) from rfl]
    rw [h, (perm_lista_unicos (linhas.map normaliza_cnpj)).length_eq]
  · rw [show (pipeline lookup linhas).2
        = loopConsultas lookup (lista_unicos (linhas.map normaliza_cnpj)) from rfl]
    rw [loopConsultas_mapa, List.map_map]
    have : (Prod.fst ∘ fun c => (c, resPara lookup c)) = id := rfl
    rw [this, List.map_id]
  · intro c hc
    rw [show (pipeline lookup linhas).2
        = loopConsultas lookup (lista_unicos (linhas.map normaliza_cnpj)) from rfl]
    rw [loopConsultas_mapa]
    exact lookup_map_graph (resPara lookup) _ c (mem_lista_unicos hc)

/-- Witness for C10 at the three test rows (two distinct identifiers). -/
theorem c10_unicidade_witness :
    (pipeline lookupTrivial linhasTeste).2.ok + (pipeline lookupTrivial linhasTeste).2.inval +
      (pipeline lookupTrivial linhasTeste).2.err = 2 ∧
    ((pipeline lookupTrivial linhasTeste).2.mapa).lookup "00000000000000" =
      some (resPara lookupTrivial "00000000000000") := by
  have h := c10_unicidade lookupTrivial linhasTeste
  exact ⟨h.1.trans (by decide), h.2.2.2 "00000000000000" (by decide)⟩

end Cnpj
